import Mathlib

/-!
Shallow embedding of the watermark decision logic of
`react/features/base/react/components/web/Watermarks.js`.

The component decides, for the three badge slots (brand watermark, Jitsi
product watermark, powered-by credit), whether each is rendered and, when
rendered, whether it is wrapped in a click-through anchor and which
background image it carries.  JavaScript strings that may be `undefined`
are modelled as `Option String`; JavaScript truthiness of such a value
(`undefined` and the empty string are falsy) is `jsTruthy`, and template
literal interpolation of `undefined` yields the literal text "undefined"
(`jsShow`).
-/

/-- Truthiness of a JavaScript string value that may be `undefined`:
`undefined` and the empty string are falsy, every other string is truthy. -/
def jsTruthy : Option String → Bool
  | none => false
  | some s => !(s == "")

/-- Template-literal interpolation of a possibly-`undefined` JavaScript
string: `undefined` interpolates as the literal text "undefined". -/
def jsShow : Option String → String
  | none => "undefined"
  | some s => s

/-- JavaScript `x || d` where `x` is a possibly-`undefined` string and `d`
a string: the value of `x` when `x` is truthy, otherwise `d`. -/
def jsOrElse (x : Option String) (d : String) : String :=
  if jsTruthy x then jsShow x else d

/-- Static deployment configuration (the global `interfaceConfig` object),
restricted to the fields the component reads. -/
structure InterfaceConfig where
  filmStripOnly : Bool
  SHOW_BRAND_WATERMARK : Bool
  BRAND_WATERMARK_LINK : String
  SHOW_POWERED_BY : Bool
  SHOW_JITSI_WATERMARK : Bool
  SHOW_JITSI_WATERMARK_FOR_GUESTS : Bool
  JITSI_WATERMARK_LINK : String
  DEFAULT_LOGO_URL : String
  deriving DecidableEq

/-- The `features/dynamic-branding` slice of the Redux store, restricted to
the fields `_mapStateToProps` destructures.  The two URL fields may be
`undefined` in the store. -/
structure BrandingState where
  customizationReady : Bool
  customizationFailed : Bool
  useDynamicBrandingData : Bool
  logoClickUrl : Option String
  logoImageUrl : Option String
  deriving DecidableEq

/-- Session facts read from the store: `isGuest` from `features/base/jwt`
and whether a conference room is active (`features/base/conference`.room
is truthy; its negation is `welcomePageVisible`). -/
structure SessionState where
  isGuest : Bool
  roomActive : Bool
  deriving DecidableEq

/-- The component state computed once by the `Watermarks` constructor. -/
structure State where
  brandWatermarkLink : String
  showBrandWatermark : Bool
  showPoweredBy : Bool
  deriving DecidableEq

/-- The props produced by `_mapStateToProps`. -/
structure MappedProps where
  customLogoLink : Option String
  customLogoUrl : Option String
  useDynamicBrandingData : Bool
  showJitsiWaterMark : Bool
  deriving DecidableEq

/-- Outcome of one render method for a badge slot: `nullElement` when the
slot is not rendered, `unwrapped bg` when the badge div with background
image `bg` is rendered bare, and `wrapped href bg` when that div is
additionally wrapped in an anchor targeting `href`. -/
inductive RenderResult where
  | nullElement : RenderResult
  | unwrapped : String → RenderResult
  | wrapped : String → String → RenderResult
  deriving DecidableEq

/-- Whether the slot is rendered at all. -/
def RenderResult.visible : RenderResult → Bool
  | .nullElement => false
  | .unwrapped _ => true
  | .wrapped _ _ => true

/-- Whether the badge is wrapped in a click-through anchor. -/
def RenderResult.isWrapped : RenderResult → Bool
  | .wrapped _ _ => true
  | _ => false

/-- The click-through link of the slot; the empty string when the slot is
not rendered or the badge is rendered unwrapped. -/
def RenderResult.linkOf : RenderResult → String
  | .wrapped l _ => l
  | _ => ""

/-- The background image of the rendered badge; the empty string when the
slot is not rendered. -/
def RenderResult.bgOf : RenderResult → String
  | .wrapped _ b => b
  | .unwrapped b => b
  | .nullElement => ""

/-- The background image of `_RIGHT_WATERMARK_STYLE`, the constant style of
the brand watermark element. -/
def _RIGHT_WATERMARK_STYLE : String := "url(images/rightwatermark.png)"

/-- The `Watermarks` constructor: computes `showBrandWatermark` (false in
film-strip-only mode, otherwise `SHOW_BRAND_WATERMARK`), captures
`BRAND_WATERMARK_LINK` only when the brand watermark is shown, and copies
`SHOW_POWERED_BY`. -/
def initialState (cfg : InterfaceConfig) : State :=
  let showBrandWatermark := if cfg.filmStripOnly then false else cfg.SHOW_BRAND_WATERMARK
  { brandWatermarkLink := if showBrandWatermark then cfg.BRAND_WATERMARK_LINK else ""
    showBrandWatermark := showBrandWatermark
    showPoweredBy := cfg.SHOW_POWERED_BY }

/-- The `_mapStateToProps` selector: passes the dynamic-branding URL fields
through and computes `_showJitsiWaterMark` from the static flags, the
customization status, the guest flag and the welcome-page override. -/
def _mapStateToProps (cfg : InterfaceConfig) (branding : BrandingState)
    (session : SessionState) : MappedProps :=
  let welcomePageVisible := !session.roomActive
  { customLogoLink := branding.logoClickUrl
    customLogoUrl := branding.logoImageUrl
    useDynamicBrandingData := branding.useDynamicBrandingData
    showJitsiWaterMark :=
      (!cfg.filmStripOnly
          && (branding.customizationReady && !branding.customizationFailed)
          && (cfg.SHOW_JITSI_WATERMARK
              || (session.isGuest && cfg.SHOW_JITSI_WATERMARK_FOR_GUESTS)))
        || welcomePageVisible }

/-- The `_renderBrandWatermark` method: renders the brand badge when
`showBrandWatermark` holds, wrapping it in an anchor when the captured
`brandWatermarkLink` is truthy (non-empty). -/
def _renderBrandWatermark (st : State) : RenderResult :=
  if st.showBrandWatermark then
    if st.brandWatermarkLink = "" then RenderResult.unwrapped _RIGHT_WATERMARK_STYLE
    else RenderResult.wrapped st.brandWatermarkLink _RIGHT_WATERMARK_STYLE
  else RenderResult.nullElement

/-- The local variable `link` of `_renderJitsiWatermark`: the custom logo
link under dynamic branding, otherwise `JITSI_WATERMARK_LINK`. -/
def jitsiLink (cfg : InterfaceConfig) (props : MappedProps) : Option String :=
  if props.useDynamicBrandingData then props.customLogoLink
  else some cfg.JITSI_WATERMARK_LINK

/-- The local variable `backgroundImage` of `_renderJitsiWatermark`: a url
reference to the custom logo under dynamic branding, otherwise to
`defaultJitsiLogoURL || DEFAULT_LOGO_URL`. -/
def jitsiBg (cfg : InterfaceConfig) (props : MappedProps)
    (defaultJitsiLogoURL : Option String) : String :=
  if props.useDynamicBrandingData then "url(" ++ jsShow props.customLogoUrl ++ ")"
  else "url(" ++ jsOrElse defaultJitsiLogoURL cfg.DEFAULT_LOGO_URL ++ ")"

/-- The `_renderJitsiWatermark` method: when `_showJitsiWaterMark` holds,
picks link and background image from the dynamic branding data when
`_useDynamicBrandingData` holds, otherwise from `JITSI_WATERMARK_LINK` and
`defaultJitsiLogoURL || DEFAULT_LOGO_URL`, and wraps the badge in an anchor
exactly when the chosen link is truthy. -/
def _renderJitsiWatermark (cfg : InterfaceConfig) (props : MappedProps)
    (defaultJitsiLogoURL : Option String) : RenderResult :=
  if props.showJitsiWaterMark then
    let link : Option String := jitsiLink cfg props
    let backgroundImage : String := jitsiBg cfg props defaultJitsiLogoURL
    if jsTruthy link then RenderResult.wrapped (jsShow link) backgroundImage
    else RenderResult.unwrapped backgroundImage
  else RenderResult.nullElement

/-- The `_renderPoweredBy` method: when `showPoweredBy` holds, renders an
anchor with the fixed href `http://jitsi.org`, otherwise nothing. -/
def _renderPoweredBy (st : State) : Option String :=
  if st.showPoweredBy then some ("http://jitsi.org") else none

/-- The full decision record for one render of the component. -/
structure WatermarkDecision where
  brand : RenderResult
  product : RenderResult
  poweredBy : Option String
  deriving DecidableEq

/-- The complete decision pipeline of the component: constructor state from
the static configuration, mapped props from the store slices, and the three
render methods.  `defaultJitsiLogoURL` is the caller-supplied prop of the
same name. -/
def resolve (cfg : InterfaceConfig) (branding : BrandingState)
    (session : SessionState) (defaultJitsiLogoURL : Option String) : WatermarkDecision :=
  { brand := _renderBrandWatermark (initialState cfg)
    product := _renderJitsiWatermark cfg (_mapStateToProps cfg branding session)
        defaultJitsiLogoURL
    poweredBy := _renderPoweredBy (initialState cfg) }

theorem visible_renderJitsi (cfg : InterfaceConfig) (props : MappedProps)
    (dflt : Option String) :
    (_renderJitsiWatermark cfg props dflt).visible = props.showJitsiWaterMark := by
  unfold _renderJitsiWatermark
  split
  · rename_i h
    rw [h]
    dsimp only
    split <;> rfl
  · rename_i h
    simp only [Bool.not_eq_true] at h
    rw [h]
    rfl

theorem visible_renderBrand (st : State) :
    (_renderBrandWatermark st).visible = st.showBrandWatermark := by
  unfold _renderBrandWatermark
  split
  · rename_i h
    rw [h]
    split <;> rfl
  · rename_i h
    simp only [Bool.not_eq_true] at h
    rw [h]
    rfl

/-- Deployment configuration used as a concrete evaluation point. -/
def cfgA : InterfaceConfig :=
  { filmStripOnly := false
    SHOW_BRAND_WATERMARK := true
    BRAND_WATERMARK_LINK := "https://brand.example"
    SHOW_POWERED_BY := true
    SHOW_JITSI_WATERMARK := true
    SHOW_JITSI_WATERMARK_FOR_GUESTS := false
    JITSI_WATERMARK_LINK := "https://jitsi.org"
    DEFAULT_LOGO_URL := "images/watermark.svg" }

/-- Branding slice with dynamic data in use, an empty click url and a
custom logo url, used as a concrete evaluation point. -/
def brandingDyn : BrandingState :=
  { customizationReady := true
    customizationFailed := false
    useDynamicBrandingData := true
    logoClickUrl := some ("")
    logoImageUrl := some ("https://x/logo.png") }

/-- Branding slice with dynamic data in use and both url fields absent,
used as a concrete evaluation point. -/
def brandingAbsent : BrandingState :=
  { customizationReady := true
    customizationFailed := false
    useDynamicBrandingData := true
    logoClickUrl := none
    logoImageUrl := none }

/-- Session on the welcome page (no room joined), used as a concrete
evaluation point. -/
def sessionWelcome : SessionState :=
  { isGuest := false
    roomActive := false }

/-- C1: the product slot is visible exactly when the static-eligibility
formula `!filmStripOnly && (customizationReady && !customizationFailed) &&
(SHOW_JITSI_WATERMARK || (isGuest && SHOW_JITSI_WATERMARK_FOR_GUESTS))`
holds or `roomActive` is false; in particular, with `roomActive := false`
the product slot is visible for every choice of the remaining inputs. -/
theorem product_slot_visibility (cfg : InterfaceConfig) (branding : BrandingState)
    (session : SessionState) (dflt : Option String) :
    ((resolve cfg branding session dflt).product.visible =
      ((!cfg.filmStripOnly
          && (branding.customizationReady && !branding.customizationFailed)
          && (cfg.SHOW_JITSI_WATERMARK
              || (session.isGuest && cfg.SHOW_JITSI_WATERMARK_FOR_GUESTS)))
        || !session.roomActive))
    ∧ (resolve cfg branding { session with roomActive := false } dflt).product.visible
        = true := by
  constructor
  · rw [show (resolve cfg branding session dflt).product
        = _renderJitsiWatermark cfg (_mapStateToProps cfg branding session) dflt from rfl,
      visible_renderJitsi]
    rfl
  · rw [show (resolve cfg branding { session with roomActive := false } dflt).product
        = _renderJitsiWatermark cfg
            (_mapStateToProps cfg branding { session with roomActive := false }) dflt from rfl,
      visible_renderJitsi]
    simp [_mapStateToProps]

/-- C2: the brand slot is not visible in film-strip-only mode and is
otherwise visible exactly when `SHOW_BRAND_WATERMARK` holds; the right-hand
side mentions no branding or session input, so neither affects brand-slot
visibility. -/
theorem brand_slot_visibility (cfg : InterfaceConfig) (branding : BrandingState)
    (session : SessionState) (dflt : Option String) :
    (resolve cfg branding session dflt).brand.visible =
      (!cfg.filmStripOnly && cfg.SHOW_BRAND_WATERMARK) := by
  rw [show (resolve cfg branding session dflt).brand
      = _renderBrandWatermark (initialState cfg) from rfl, visible_renderBrand]
  cases h : cfg.filmStripOnly <;> simp [initialState, h]

/-- Value of a possibly-`undefined` JavaScript link once resolved: the
string itself, the empty string when absent. -/
def jsLinkValue : Option String → String
  | none => ""
  | some s => s

theorem linkOf_wrapIf (l : Option String) (bg : String) :
    ((if jsTruthy l then RenderResult.wrapped (jsShow l) bg
        else RenderResult.unwrapped bg)).linkOf = jsLinkValue l
    ∧ ((if jsTruthy l then RenderResult.wrapped (jsShow l) bg
        else RenderResult.unwrapped bg)).isWrapped = jsTruthy l
    ∧ ((if jsTruthy l then RenderResult.wrapped (jsShow l) bg
        else RenderResult.unwrapped bg)).bgOf = bg := by
  cases l with
  | none =>
      simp [jsTruthy, jsShow, jsLinkValue, RenderResult.linkOf, RenderResult.isWrapped,
        RenderResult.bgOf]
  | some s =>
      cases hse : s == ""
      · simp [jsTruthy, jsShow, jsLinkValue, hse, RenderResult.linkOf,
          RenderResult.isWrapped, RenderResult.bgOf]
      · have hs : s = "" := by simpa using hse
        subst hs
        simp [jsTruthy, jsShow, jsLinkValue, RenderResult.linkOf, RenderResult.isWrapped,
          RenderResult.bgOf]

theorem renderJitsi_eq_of_show (cfg : InterfaceConfig) (props : MappedProps)
    (dflt : Option String) (h : props.showJitsiWaterMark = true) :
    _renderJitsiWatermark cfg props dflt =
      (if jsTruthy (jitsiLink cfg props) then
        RenderResult.wrapped (jsShow (jitsiLink cfg props)) (jitsiBg cfg props dflt)
      else RenderResult.unwrapped (jitsiBg cfg props dflt)) := by
  unfold _renderJitsiWatermark
  rw [h]
  exact rfl

theorem renderJitsi_content (cfg : InterfaceConfig) (props : MappedProps)
    (dflt : Option String) (h : props.showJitsiWaterMark = true) :
    (_renderJitsiWatermark cfg props dflt).linkOf = jsLinkValue (jitsiLink cfg props)
    ∧ (_renderJitsiWatermark cfg props dflt).isWrapped = jsTruthy (jitsiLink cfg props)
    ∧ (_renderJitsiWatermark cfg props dflt).bgOf = jitsiBg cfg props dflt := by
  rw [renderJitsi_eq_of_show cfg props dflt h]
  exact linkOf_wrapIf (jitsiLink cfg props) (jitsiBg cfg props dflt)

theorem jsShow_ne_empty_of_truthy {x : Option String} (h : jsTruthy x = true) :
    jsShow x ≠ "" := by
  cases x with
  | none => simp [jsTruthy] at h
  | some s =>
      simp [jsTruthy] at h
      simpa [jsShow] using h

/-- C3: whenever the brand slot is visible, the rendered badge is wrapped
in an anchor to `BRAND_WATERMARK_LINK` when that value is non-empty, and
rendered unwrapped (with empty link) when it is empty, so the three
outcomes not-visible, visible-unwrapped and visible-with-link are exactly
distinguished. -/
theorem brand_slot_link (cfg : InterfaceConfig) (branding : BrandingState)
    (session : SessionState) (dflt : Option String)
    (h : (resolve cfg branding session dflt).brand.visible = true) :
    (cfg.BRAND_WATERMARK_LINK = "" →
      (resolve cfg branding session dflt).brand
        = RenderResult.unwrapped _RIGHT_WATERMARK_STYLE)
    ∧ (cfg.BRAND_WATERMARK_LINK ≠ "" →
      (resolve cfg branding session dflt).brand
        = RenderResult.wrapped cfg.BRAND_WATERMARK_LINK _RIGHT_WATERMARK_STYLE) := by
  replace h : (_renderBrandWatermark (initialState cfg)).visible = true := h
  rw [visible_renderBrand] at h
  have hl : (initialState cfg).brandWatermarkLink = cfg.BRAND_WATERMARK_LINK := by
    have h2 := h
    simp only [initialState] at h2 ⊢
    rw [h2]
    exact rfl
  rw [show (resolve cfg branding session dflt).brand
      = _renderBrandWatermark (initialState cfg) from rfl]
  unfold _renderBrandWatermark
  rw [h, hl]
  constructor
  · intro he
    simp [he]
  · intro hn
    simp [hn]

/-- C3 witness: at the concrete configuration `cfgA` the brand slot is
visible and, the configured link being non-empty, rendered wrapped. -/
theorem brand_slot_link_witness :
    (resolve cfgA brandingDyn sessionWelcome none).brand
      = RenderResult.wrapped ("https://brand.example") _RIGHT_WATERMARK_STYLE :=
  (brand_slot_link cfgA brandingDyn sessionWelcome none (by decide)).2 (by decide)

/-- C4: whenever the product slot is visible, under dynamic branding the
link is `logoClickUrl` (empty when absent or empty, in which case the badge
is unwrapped) and the background image references `logoImageUrl`; without
dynamic branding the link is `JITSI_WATERMARK_LINK` and the background
image references the caller-supplied `defaultJitsiLogoURL`, falling back to
`DEFAULT_LOGO_URL` when the caller-supplied value is absent (or empty,
which the module treats as absent). -/
theorem product_slot_content (cfg : InterfaceConfig) (branding : BrandingState)
    (session : SessionState) (dflt : Option String)
    (h : (resolve cfg branding session dflt).product.visible = true) :
    (branding.useDynamicBrandingData = true →
      (resolve cfg branding session dflt).product.linkOf = jsLinkValue branding.logoClickUrl
      ∧ (resolve cfg branding session dflt).product.isWrapped = jsTruthy branding.logoClickUrl
      ∧ (resolve cfg branding session dflt).product.bgOf
          = "url(" ++ jsShow branding.logoImageUrl ++ ")")
    ∧ (branding.useDynamicBrandingData = false →
      (resolve cfg branding session dflt).product.linkOf = cfg.JITSI_WATERMARK_LINK
      ∧ (resolve cfg branding session dflt).product.bgOf
          = "url(" ++ jsOrElse dflt cfg.DEFAULT_LOGO_URL ++ ")") := by
  replace h : (_renderJitsiWatermark cfg (_mapStateToProps cfg branding session) dflt).visible
      = true := h
  rw [visible_renderJitsi] at h
  have hc := renderJitsi_content cfg (_mapStateToProps cfg branding session) dflt h
  constructor
  · intro hd
    have hl : jitsiLink cfg (_mapStateToProps cfg branding session) = branding.logoClickUrl := by
      simp [jitsiLink, _mapStateToProps, hd]
    have hb : jitsiBg cfg (_mapStateToProps cfg branding session) dflt
        = "url(" ++ jsShow branding.logoImageUrl ++ ")" := by
      simp [jitsiBg, _mapStateToProps, hd]
    refine ⟨?_, ?_, ?_⟩
    · rw [show (resolve cfg branding session dflt).product
          = _renderJitsiWatermark cfg (_mapStateToProps cfg branding session) dflt from rfl,
        hc.1, hl]
    · rw [show (resolve cfg branding session dflt).product
          = _renderJitsiWatermark cfg (_mapStateToProps cfg branding session) dflt from rfl,
        hc.2.1, hl]
    · rw [show (resolve cfg branding session dflt).product
          = _renderJitsiWatermark cfg (_mapStateToProps cfg branding session) dflt from rfl,
        hc.2.2, hb]
  · intro hd
    have hl : jitsiLink cfg (_mapStateToProps cfg branding session)
        = some cfg.JITSI_WATERMARK_LINK := by
      simp [jitsiLink, _mapStateToProps, hd]
    have hb : jitsiBg cfg (_mapStateToProps cfg branding session) dflt
        = "url(" ++ jsOrElse dflt cfg.DEFAULT_LOGO_URL ++ ")" := by
      simp [jitsiBg, _mapStateToProps, hd]
    refine ⟨?_, ?_⟩
    · rw [show (resolve cfg branding session dflt).product
          = _renderJitsiWatermark cfg (_mapStateToProps cfg branding session) dflt from rfl,
        hc.1, hl]
      rfl
    · rw [show (resolve cfg branding session dflt).product
          = _renderJitsiWatermark cfg (_mapStateToProps cfg branding session) dflt from rfl,
        hc.2.2, hb]

/-- C4 witness: on the welcome page with dynamic branding, an empty click
url and a custom logo url, the visible product badge is unwrapped and its
background image references the custom url. -/
theorem product_slot_content_witness :
    (resolve cfgA brandingDyn sessionWelcome none).product.bgOf
        = "url(" ++ jsShow brandingDyn.logoImageUrl ++ ")"
    ∧ (resolve cfgA brandingDyn sessionWelcome none).product.isWrapped
        = jsTruthy brandingDyn.logoClickUrl :=
  ⟨(((product_slot_content cfgA brandingDyn sessionWelcome none (by decide)).1 (by decide)).2).2,
    (((product_slot_content cfgA brandingDyn sessionWelcome none (by decide)).1 (by decide)).2).1⟩

/-- C5: the powered-by slot is visible exactly when `SHOW_POWERED_BY`
holds, and when visible it targets the fixed external url
`http://jitsi.org`; the right-hand side mentions no other configuration,
branding or session input. -/
theorem powered_by_slot (cfg : InterfaceConfig) (branding : BrandingState)
    (session : SessionState) (dflt : Option String) :
    (resolve cfg branding session dflt).poweredBy
      = (if cfg.SHOW_POWERED_BY then some ("http://jitsi.org") else none) := rfl

/-- C6: setting `customizationFailed` on any branding input yields the very
decision obtained by clearing `customizationReady` on that input instead:
the failure signal suppresses the static-eligibility path of the product
slot exactly as a not-ready customization does, and affects nothing else. -/
theorem customization_failed_like_not_ready (cfg : InterfaceConfig)
    (branding : BrandingState) (session : SessionState) (dflt : Option String) :
    resolve cfg { branding with customizationFailed := true } session dflt
      = resolve cfg { branding with customizationReady := false } session dflt := by
  have hm : _mapStateToProps cfg { branding with customizationFailed := true } session
      = _mapStateToProps cfg { branding with customizationReady := false } session := by
    simp [_mapStateToProps]
  unfold resolve
  rw [hm]

/-- Consistency of one badge slot: exactly one of not-visible (with empty
link), visible-unwrapped (with empty link) or visible-wrapped (with
non-empty link) holds; the three alternatives are pairwise exclusive by
their boolean components. -/
def slotConsistent (r : RenderResult) : Prop :=
  (r.visible = false ∧ r.linkOf = "")
  ∨ (r.visible = true ∧ r.isWrapped = false ∧ r.linkOf = "")
  ∨ (r.visible = true ∧ r.isWrapped = true ∧ r.linkOf ≠ "")

theorem slotConsistent_renderBrand (st : State) :
    slotConsistent (_renderBrandWatermark st) := by
  unfold _renderBrandWatermark slotConsistent
  split
  · split
    · right; left; exact ⟨rfl, rfl, rfl⟩
    · rename_i hne
      right; right; exact ⟨rfl, rfl, hne⟩
  · left; exact ⟨rfl, rfl⟩

theorem slotConsistent_renderJitsi (cfg : InterfaceConfig) (props : MappedProps)
    (dflt : Option String) : slotConsistent (_renderJitsiWatermark cfg props dflt) := by
  unfold _renderJitsiWatermark slotConsistent
  split
  · dsimp only
    split
    · rename_i ht
      right; right
      exact ⟨rfl, rfl, jsShow_ne_empty_of_truthy ht⟩
    · right; left; exact ⟨rfl, rfl, rfl⟩
  · left; exact ⟨rfl, rfl⟩

/-- C7: for every input, each of the three slots is in exactly one of the
states not-visible, visible-without-link or visible-with-link, the link
component being the empty value whenever the slot is not visible (and also
the captured constructor state keeps `brandWatermarkLink` empty whenever
`showBrandWatermark` is cleared); the powered-by slot is either absent or
the fixed url. -/
theorem slot_three_way_consistency (cfg : InterfaceConfig) (branding : BrandingState)
    (session : SessionState) (dflt : Option String) :
    slotConsistent (resolve cfg branding session dflt).brand
    ∧ slotConsistent (resolve cfg branding session dflt).product
    ∧ ((resolve cfg branding session dflt).poweredBy = none
        ∨ (resolve cfg branding session dflt).poweredBy = some ("http://jitsi.org"))
    ∧ (initialState cfg).brandWatermarkLink
        = (if (initialState cfg).showBrandWatermark then cfg.BRAND_WATERMARK_LINK else "") := by
  refine ⟨slotConsistent_renderBrand (initialState cfg),
    slotConsistent_renderJitsi cfg (_mapStateToProps cfg branding session) dflt, ?_, rfl⟩
  show (_renderPoweredBy (initialState cfg)) = none
      ∨ (_renderPoweredBy (initialState cfg)) = some ("http://jitsi.org")
  unfold _renderPoweredBy
  split
  · right; rfl
  · left; rfl

/-- C8: the decision is a pure, deterministic function of the explicit
inputs: any two invocations on structurally equal configuration, branding,
session and default-logo inputs produce structurally equal decision
records. -/
theorem resolve_deterministic (cfg1 cfg2 : InterfaceConfig) (b1 b2 : BrandingState)
    (s1 s2 : SessionState) (d1 d2 : Option String)
    (hc : cfg1 = cfg2) (hb : b1 = b2) (hs : s1 = s2) (hd : d1 = d2) :
    resolve cfg1 b1 s1 d1 = resolve cfg2 b2 s2 d2 := by
  subst hc
  subst hb
  subst hs
  subst hd
  rfl

/-- C8 witness: two invocations on the concrete inputs give structurally
equal decisions. -/
theorem resolve_deterministic_witness :
    resolve cfgA brandingDyn sessionWelcome none
      = resolve cfgA brandingDyn sessionWelcome none :=
  resolve_deterministic cfgA cfgA brandingDyn brandingDyn sessionWelcome sessionWelcome
    none none rfl rfl rfl rfl

/-- C9: the decision function is total (it is a plain function into
`WatermarkDecision`, so it returns a decision on every input, including
those with absent optional fields, and raises nothing), and an absent
optional field behaves as falsy: with `logoClickUrl` absent the product
badge is never wrapped and its link is empty, an absent `logoClickUrl` is
interchangeable with an empty one, and an absent caller-supplied
`defaultJitsiLogoURL` is interchangeable with an empty one (both fall back
to `DEFAULT_LOGO_URL`). -/
theorem resolve_total_absent_fields (cfg : InterfaceConfig) (session : SessionState)
    (ready failed : Bool) :
    ((resolve cfg ⟨ready, failed, true, none, none⟩ session none).product.isWrapped = false)
    ∧ ((resolve cfg ⟨ready, failed, true, none, none⟩ session none).product.linkOf = "")
    ∧ (resolve cfg ⟨ready, failed, true, none, none⟩ session none
        = resolve cfg ⟨ready, failed, true, some (""), none⟩ session none)
    ∧ (resolve cfg ⟨ready, failed, false, none, none⟩ session none
        = resolve cfg ⟨ready, failed, false, none, none⟩ session (some (""))) := by
  refine ⟨?_, ?_, ?_, ?_⟩
  · show (_renderJitsiWatermark cfg
        (_mapStateToProps cfg ⟨ready, failed, true, none, none⟩ session) none).isWrapped = false
    unfold _renderJitsiWatermark
    split
    · dsimp only
      split
      · rename_i ht
        simp [jitsiLink, _mapStateToProps, jsTruthy] at ht
      · rfl
    · rfl
  · show (_renderJitsiWatermark cfg
        (_mapStateToProps cfg ⟨ready, failed, true, none, none⟩ session) none).linkOf = ""
    unfold _renderJitsiWatermark
    split
    · dsimp only
      split
      · rename_i ht
        simp [jitsiLink, _mapStateToProps, jsTruthy] at ht
      · rfl
    · rfl
  · unfold resolve
    have hm : _renderJitsiWatermark cfg
          (_mapStateToProps cfg ⟨ready, failed, true, none, none⟩ session) none
        = _renderJitsiWatermark cfg
          (_mapStateToProps cfg ⟨ready, failed, true, some (""), none⟩ session) none := by
      unfold _renderJitsiWatermark
      simp [_mapStateToProps, jitsiLink, jitsiBg, jsTruthy, jsShow]
    rw [hm]
  · unfold resolve
    have hm : _renderJitsiWatermark cfg
          (_mapStateToProps cfg ⟨ready, failed, false, none, none⟩ session) none
        = _renderJitsiWatermark cfg
          (_mapStateToProps cfg ⟨ready, failed, false, none, none⟩ session) (some ("")) := by
      unfold _renderJitsiWatermark
      simp [_mapStateToProps, jitsiLink, jitsiBg, jsOrElse, jsTruthy, jsShow]
    rw [hm]

theorem renderJitsi_congr (cfg1 cfg2 : InterfaceConfig) (props1 props2 : MappedProps)
    (dflt1 dflt2 : Option String)
    (hshow : props1.showJitsiWaterMark = props2.showJitsiWaterMark)
    (hlink : jitsiLink cfg1 props1 = jitsiLink cfg2 props2)
    (hbg : jitsiBg cfg1 props1 dflt1 = jitsiBg cfg2 props2 dflt2) :
    _renderJitsiWatermark cfg1 props1 dflt1 = _renderJitsiWatermark cfg2 props2 dflt2 := by
  unfold _renderJitsiWatermark
  rw [hshow, hlink, hbg]

/-- C10: whenever the product slot is visible under dynamic branding, its
background image is the string interpolation of `logoImageUrl` into a url
reference; when `logoImageUrl` is absent this is the literal string
"url(undefined)"; and the rendered product slot is unchanged by any choice
of caller-supplied default logo url and of `DEFAULT_LOGO_URL`, so neither
is consulted as a fallback. -/
theorem dynamic_background_image (cfg : InterfaceConfig) (branding : BrandingState)
    (session : SessionState) (dflt : Option String)
    (hdyn : branding.useDynamicBrandingData = true)
    (hvis : (resolve cfg branding session dflt).product.visible = true) :
    ((resolve cfg branding session dflt).product.bgOf
        = "url(" ++ jsShow branding.logoImageUrl ++ ")")
    ∧ (branding.logoImageUrl = none →
        (resolve cfg branding session dflt).product.bgOf = "url(undefined)")
    ∧ (∀ (dflt2 : Option String) (u2 : String),
        (resolve { cfg with DEFAULT_LOGO_URL := u2 } branding session dflt2).product
          = (resolve cfg branding session dflt).product) := by
  replace hvis : (_renderJitsiWatermark cfg (_mapStateToProps cfg branding session) dflt).visible
      = true := hvis
  rw [visible_renderJitsi] at hvis
  have hc := renderJitsi_content cfg (_mapStateToProps cfg branding session) dflt hvis
  have hb : jitsiBg cfg (_mapStateToProps cfg branding session) dflt
      = "url(" ++ jsShow branding.logoImageUrl ++ ")" := by
    simp [jitsiBg, _mapStateToProps, hdyn]
  have hbase : (resolve cfg branding session dflt).product.bgOf
      = "url(" ++ jsShow branding.logoImageUrl ++ ")" := by
    rw [show (resolve cfg branding session dflt).product
        = _renderJitsiWatermark cfg (_mapStateToProps cfg branding session) dflt from rfl,
      hc.2.2, hb]
  refine ⟨hbase, ?_, ?_⟩
  · intro himg
    rw [hbase, himg]
    rfl
  · intro dflt2 u2
    show _renderJitsiWatermark { cfg with DEFAULT_LOGO_URL := u2 }
        (_mapStateToProps { cfg with DEFAULT_LOGO_URL := u2 } branding session) dflt2
      = _renderJitsiWatermark cfg (_mapStateToProps cfg branding session) dflt
    apply renderJitsi_congr
    · simp [_mapStateToProps]
    · simp [jitsiLink, _mapStateToProps, hdyn]
    · simp [jitsiBg, _mapStateToProps, hdyn]

/-- C10 witness: with dynamic branding, both url fields absent and the
welcome page visible, the product background image is the literal
"url(undefined)". -/
theorem dynamic_background_image_witness :
    (resolve cfgA brandingAbsent sessionWelcome none).product.bgOf = "url(undefined)" :=
  ((dynamic_background_image cfgA brandingAbsent sessionWelcome none rfl (by decide)).2).1 rfl
